import Mathlib

/-!
A shallow embedding of the `nightscout` Python client library
(`src/nightscout/api.py`) together with proofs about its behaviour.

The HTTP transport (`requests.get` / `requests.post`) and the JSON decoder
(`response.json()`) are external libraries; they are modelled as function
parameters (`HttpClient`, `JsonDecoder`) of the embedded operations.
The record classes (`SGV`, `Treatment`, `Activity`, `ProfileDefinition`,
`ProfileDefinitionSet`) are imported by `api.py` from the package but their
source is not part of the repository snapshot; their constructors are
modelled from the specification (see the doc comments).

Python `dict`s are modelled as association lists with last-write-wins
update (`dictSet`); Python method calls are embedded in a state-threading
style so that frame properties (no mutation of `self` or of the `params`
argument) are statable: every method returns its (unchanged) receiver and
`params` next to its result, mirroring the absence of any assignment to
`self.<field>` or mutation of `params` in the source.
-/

/-- A JSON value (numbers restricted to integers, which covers every literal
appearing in the source and every field the claims mention). -/
inductive Json where
  | null : Json
  | bool : Bool → Json
  | num : Int → Json
  | str : String → Json
  | arr : List Json → Json
  | obj : List (String × Json) → Json

namespace Json

/-- Field lookup in a JSON object, `None` for non-objects or missing keys. -/
def get? (j : Json) (k : String) : Option Json :=
  match j with
  | .obj fields => (fields.find? (fun p => p.1 = k)).map Prod.snd
  | _ => none

end Json

/-- Python `dict` lookup on an association-list model. -/
def dictGet (d : List (String × String)) (k : String) : Option String :=
  (d.find? (fun p => p.1 = k)).map Prod.snd

/-- Python `dict` assignment `d[k] = v`: replace the binding if the key is
present, otherwise append it. -/
def dictSet (d : List (String × String)) (k v : String) : List (String × String) :=
  if d.any (fun p => p.1 = k) then
    d.map (fun p => if p.1 = k then (k, v) else p)
  else
    d ++ [(k, v)]

/-- Number of bindings of a key in the association-list model of a dict. -/
def dictCount (d : List (String × String)) (k : String) : Nat :=
  d.countP (fun p => p.1 = k)

/-! ## UTF-8 and SHA-1 (models of `str.encode('utf-8')` and `hashlib.sha1`) -/

/-- UTF-8 encoding of a single Unicode code point, as a list of byte values. -/
def charUtf8 (c : Char) : List Nat :=
  let n := c.toNat
  if n < 0x80 then [n]
  else if n < 0x800 then
    [0xC0 ||| (n >>> 6), 0x80 ||| (n &&& 0x3F)]
  else if n < 0x10000 then
    [0xE0 ||| (n >>> 12), 0x80 ||| ((n >>> 6) &&& 0x3F), 0x80 ||| (n &&& 0x3F)]
  else
    [0xF0 ||| (n >>> 18), 0x80 ||| ((n >>> 12) &&& 0x3F),
     0x80 ||| ((n >>> 6) &&& 0x3F), 0x80 ||| (n &&& 0x3F)]

/-- UTF-8 encoding of a string (model of Python's `s.encode('utf-8')`). -/
def utf8Bytes (s : String) : List Nat :=
  s.toList.foldr (fun c acc => charUtf8 c ++ acc) []

/-- `2 ^ 32`, the modulus for SHA-1's 32-bit word arithmetic. -/
def M32 : Nat := 4294967296

/-- Left rotation of a 32-bit word. -/
def rotl (n x : Nat) : Nat :=
  ((x <<< n) ||| (x >>> (32 - n))) % M32

/-- Big-endian byte decomposition of `n` into `k` bytes. -/
def beBytes (k n : Nat) : List Nat :=
  (List.range k).map (fun i => (n >>> (8 * (k - 1 - i))) % 256)

/-- SHA-1 message padding: append `0x80`, zero bytes up to 56 mod 64, then
the 64-bit big-endian bit length. -/
def sha1Pad (msg : List Nat) : List Nat :=
  let len := msg.length
  msg ++ [0x80] ++ List.replicate ((119 - len % 64) % 64) 0 ++ beBytes 8 (len * 8)

/-- Split a list into chunks of 64, driven by a fuel count (structural
recursion so that the kernel can evaluate it). -/
def toBlocksF : Nat → List Nat → List (List Nat)
  | 0, _ => []
  | f + 1, l => l.take 64 :: toBlocksF f (l.drop 64)

/-- The 64-byte blocks of a padded SHA-1 message. -/
def toBlocks (l : List Nat) : List (List Nat) :=
  toBlocksF (l.length / 64) l

/-- The `i`-th big-endian 32-bit word of a 64-byte block. -/
def wordAt (block : List Nat) (i : Nat) : Nat :=
  block.getD (4 * i) 0 * 16777216 + block.getD (4 * i + 1) 0 * 65536 +
    block.getD (4 * i + 2) 0 * 256 + block.getD (4 * i + 3) 0

/-- Extend the 16-word schedule by `k` further words
(`w[i] = rotl1 (w[i-3] xor w[i-8] xor w[i-14] xor w[i-16])`). -/
def extendW : List Nat → Nat → List Nat
  | w, 0 => w
  | w, k + 1 =>
    let x := w.getD (w.length - 3) 0 ^^^ w.getD (w.length - 8) 0 ^^^
             w.getD (w.length - 14) 0 ^^^ w.getD (w.length - 16) 0
    extendW (w ++ [rotl 1 x]) k

/-- The 80-word message schedule of a block. -/
def schedule (block : List Nat) : List Nat :=
  extendW ((List.range 16).map (wordAt block)) 64

/-- SHA-1 round function and constant for round `i`. -/
def sha1FK (i b c d : Nat) : Nat × Nat :=
  if i < 20 then ((b &&& c) ||| ((b ^^^ 0xFFFFFFFF) &&& d), 0x5A827999)
  else if i < 40 then (b ^^^ c ^^^ d, 0x6ED9EBA1)
  else if i < 60 then ((b &&& c) ||| (b &&& d) ||| (c &&& d), 0x8F1BBCDC)
  else (b ^^^ c ^^^ d, 0xCA62C1D6)

/-- One SHA-1 round on the five-word state. -/
def sha1Round (w : List Nat) (st : Nat × Nat × Nat × Nat × Nat) (i : Nat) :
    Nat × Nat × Nat × Nat × Nat :=
  let (a, b, c, d, e) := st
  let (f, k) := sha1FK i b c d
  let temp := (rotl 5 a + f + e + k + w.getD i 0) % M32
  (temp, a, rotl 30 b, c, d)

/-- Process one 64-byte block. -/
def sha1Block (h : Nat × Nat × Nat × Nat × Nat) (block : List Nat) :
    Nat × Nat × Nat × Nat × Nat :=
  let w := schedule block
  let (a, b, c, d, e) := (List.range 80).foldl (sha1Round w) h
  let (h0, h1, h2, h3, h4) := h
  ((h0 + a) % M32, (h1 + b) % M32, (h2 + c) % M32, (h3 + d) % M32, (h4 + e) % M32)

/-- SHA-1 of a byte sequence: the five 32-bit words of the digest. -/
def sha1Words (msg : List Nat) : Nat × Nat × Nat × Nat × Nat :=
  (toBlocks (sha1Pad msg)).foldl sha1Block
    (0x67452301, 0xEFCDAB89, 0x98BADCFE, 0x10325476, 0xC3D2E1F0)

/-- The lowercase hexadecimal digit for a nibble. -/
def hexChar (n : Nat) : Char :=
  if n < 10 then Char.ofNat (48 + n) else Char.ofNat (87 + n % 16)

/-- The eight lowercase hex digits of a 32-bit word, most significant first. -/
def wordHex (x : Nat) : List Char :=
  (List.range 8).map (fun i => hexChar ((x >>> (4 * (7 - i))) % 16))

/-- Lowercase hexadecimal SHA-1 digest of a byte sequence
(model of `hashlib.sha1(b).hexdigest()`). -/
def sha1HexBytes (msg : List Nat) : String :=
  match sha1Words msg with
  | (h0, h1, h2, h3, h4) =>
    String.mk (wordHex h0 ++ wordHex h1 ++ wordHex h2 ++ wordHex h3 ++ wordHex h4)

/-- `hashlib.sha1(s.encode('utf-8')).hexdigest()`. -/
def sha1HexOfString (s : String) : String :=
  sha1HexBytes (utf8Bytes s)

set_option maxRecDepth 100000

/-- Whether a character is a lowercase hexadecimal digit. -/
def isLowerHexChar (c : Char) : Bool :=
  "0123456789abcdef".toList.contains c

/-! ## Record types

The record classes are imported by `api.py` from the `nightscout` package,
whose module defining them is not part of the repository snapshot; each
constructor below is modelled from the spec. -/

/-- String field lookup: `Some s` only when the key maps to a JSON string. -/
def Json.getStr? (j : Json) (k : String) : Option String :=
  match j.get? k with
  | some (Json.str s) => some s
  | _ => none

/-- Integer field lookup: `Some n` only when the key maps to a JSON number. -/
def Json.getInt? (j : Json) (k : String) : Option Int :=
  match j.get? k with
  | some (Json.num n) => some n
  | _ => none

/-- Map `f` over a list, failing as soon as `f` fails: the model of a Python
list comprehension `[f(x) for x in xs]` whose body may raise. -/
def listMapO (f : α → Option β) : List α → Option (List β)
  | [] => some []
  | x :: xs =>
    match f x, listMapO f xs with
    | some y, some ys => some (y :: ys)
    | _, _ => none

/-- A sensor glucose value record. -/
structure SGV where
  sgv : Int
  timestamp : String
  direction : Option String
  device : Option String

/-- Modelled from the spec: `SGV.new_from_json_dict` (the record-mapping
module is missing from `src/`). Per spec §3/§4.3: `sgv` (integer) and the
timestamp are required, `direction` and `device` are optional, unknown extra
fields are ignored. -/
def SGV.new_from_json_dict (j : Json) : Option SGV :=
  match j.getInt? "sgv", j.getStr? "timestamp" with
  | some v, some t => some ⟨v, t, j.getStr? "direction", j.getStr? "device"⟩
  | _, _ => none

/-- A clinical-event record. -/
structure Treatment where
  eventType : String
  timestamp : String
  insulin : Option Int
  carbs : Option Int
  notes : Option String

/-- Modelled from the spec: `Treatment.new_from_json_dict` (the
record-mapping module is missing from `src/`). Per spec §3/§4.3: event type
and timestamp are required, the numeric fields and notes are optional. -/
def Treatment.new_from_json_dict (j : Json) : Option Treatment :=
  match j.getStr? "eventType", j.getStr? "timestamp" with
  | some et, some t => some ⟨et, t, j.getInt? "insulin", j.getInt? "carbs", j.getStr? "notes"⟩
  | _, _ => none

/-- An activity / vital-sign record. -/
structure Activity where
  timestamp : String
  created_at : String
  activity_type : Option String
  duration : Option Int
  eventType : Option String
  value : Option Int

/-- Modelled from the spec: `Activity.new_from_json_dict` (the
record-mapping module is missing from `src/`). Per spec §3: timestamps are
required; `activity_type` is read from `activity_type` or `type`;
`duration`, `eventType` and `value` are optional. -/
def Activity.new_from_json_dict (j : Json) : Option Activity :=
  match j.getStr? "timestamp", j.getStr? "created_at" with
  | some t, some ca =>
    some ⟨t, ca, (j.getStr? "activity_type").orElse (fun _ => j.getStr? "type"),
          j.getInt? "duration", j.getStr? "eventType", j.getInt? "value"⟩
  | _, _ => none

/-- A named schedule of insulin/carb ratios. -/
structure ProfileDefinition where
  name : String
  timezone : Option String
  schedules : List (String × Json)

/-- Modelled from the spec: `ProfileDefinition.new_from_json_dict` (the
record-mapping module is missing from `src/`). Per spec §3: a name, a
timezone and an ordered sequence of time-keyed schedule entries. -/
def ProfileDefinition.new_from_json_dict (j : Json) : Option ProfileDefinition :=
  match j.getStr? "name" with
  | some n =>
    some ⟨n, j.getStr? "timezone",
          match j.get? "schedules" with
          | some (Json.obj fs) => fs
          | _ => []⟩
  | none => none

/-- An ordered collection of profile definitions. -/
structure ProfileDefinitionSet where
  profiles : List ProfileDefinition

/-- Modelled from the spec: `ProfileDefinitionSet.new_from_json_array` (the
record-mapping module is missing from `src/`). Takes a JSON array and
produces one `ProfileDefinition` per element, preserving array order. -/
def ProfileDefinitionSet.new_from_json_array (j : Json) : Option ProfileDefinitionSet :=
  match j with
  | Json.arr xs => (listMapO ProfileDefinition.new_from_json_dict xs).map (fun l => ⟨l⟩)
  | _ => none

/-! ## The client (`Api` in `src/nightscout/api.py`)

Methods are embedded in state-threading style: each returns its receiver
(and, where applicable, the `params` mapping) next to its result. The
transport and the JSON decoder are parameters. -/

/-- Errors surfaced by the client: a JSON decode failure (`DecodeError`) or
a failure to coerce a decoded value into a record (`MappingError`). -/
inductive NsError where
  | decode : String → NsError
  | mapping : NsError

/-- HTTP verbs used by the client. -/
inductive HttpMethod where
  | get : HttpMethod
  | post : HttpMethod

/-- An outgoing HTTP request as the client builds it. -/
structure Request where
  method : HttpMethod
  url : String
  headers : List (String × String)
  params : List (String × String)
  body : Option Json

/-- An HTTP response: status code and raw body bytes. -/
structure Response where
  status : Nat
  content : List Nat

/-- The HTTP transport (model of the `requests` library). -/
abbrev HttpClient := Request → Response

/-- The JSON decoder applied to a raw body (model of `response.json()`). -/
abbrev JsonDecoder := List Nat → Except String Json

/-- The client state set up by `Api.__init__` (`api.py` lines 27-30). -/
structure Api where
  site_url : String
  api_secret : Option String

/-- `Api.request_headers` (`api.py` lines 32-39): the base headers, plus an
`api-secret` entry holding the SHA-1 hex digest of the UTF-8 encoded secret
when `self.api_secret` is truthy (a non-`None`, non-empty string). -/
def Api.request_headers (api : Api) : Api × List (String × String) :=
  let headers := [("Content-Type", "application/json"), ("Accept", "application/json")]
  let headers :=
    match api.api_secret with
    | some s => if s ≠ "" then dictSet headers "api-secret" (sha1HexOfString s) else headers
    | none => headers
  (api, headers)

/-- The default value of the `params` argument (Python's `params={}`
default; the source never mutates it, so it denotes the empty mapping). -/
def default_params : List (String × String) := []

/-- The GET request issued by `get_sgvs` (`api.py` line 50). -/
def Api.sgvs_request (api : Api) (params : List (String × String)) : Request :=
  ⟨HttpMethod.get, api.site_url ++ "/api/v1/entries/sgv.json", (api.request_headers).2, params, none⟩

/-- `Api.get_sgvs` (`api.py` lines 41-51): decode the body unconditionally
and map each array element through `SGV.new_from_json_dict`. -/
def Api.get_sgvs (api : Api) (params : List (String × String))
    (http : HttpClient) (decode : JsonDecoder) :
    (Api × List (String × String)) × Except NsError (List SGV) :=
  let r := http (api.sgvs_request params)
  ((api, params),
   match decode r.content with
   | Except.error e => Except.error (NsError.decode e)
   | Except.ok (Json.arr xs) =>
     match listMapO SGV.new_from_json_dict xs with
     | some sgvs => Except.ok sgvs
     | none => Except.error NsError.mapping
   | Except.ok _ => Except.error NsError.mapping)

/-- The GET request issued by `get_treatments` (`api.py` line 62). -/
def Api.treatments_request (api : Api) (params : List (String × String)) : Request :=
  ⟨HttpMethod.get, api.site_url ++ "/api/v1/treatments.json", (api.request_headers).2, params, none⟩

/-- `Api.get_treatments` (`api.py` lines 53-66): with a zero-length body the
decoder is never consulted and the empty list is returned. -/
def Api.get_treatments (api : Api) (params : List (String × String))
    (http : HttpClient) (decode : JsonDecoder) :
    (Api × List (String × String)) × Except NsError (List Treatment) :=
  let r := http (api.treatments_request params)
  ((api, params),
   if 0 < r.content.length then
     match decode r.content with
     | Except.error e => Except.error (NsError.decode e)
     | Except.ok (Json.arr xs) =>
       match listMapO Treatment.new_from_json_dict xs with
       | some ts => Except.ok ts
       | none => Except.error NsError.mapping
     | Except.ok _ => Except.error NsError.mapping
   else
     Except.ok [])

/-- The GET request issued by `get_profiles` (`api.py` line 77). -/
def Api.profiles_request (api : Api) (params : List (String × String)) : Request :=
  ⟨HttpMethod.get, api.site_url ++ "/api/v1/profile.json", (api.request_headers).2, params, none⟩

/-- `Api.get_profiles` (`api.py` lines 68-78): decode the body
unconditionally and hand the result to
`ProfileDefinitionSet.new_from_json_array`. -/
def Api.get_profiles (api : Api) (params : List (String × String))
    (http : HttpClient) (decode : JsonDecoder) :
    (Api × List (String × String)) × Except NsError ProfileDefinitionSet :=
  let r := http (api.profiles_request params)
  ((api, params),
   match decode r.content with
   | Except.error e => Except.error (NsError.decode e)
   | Except.ok j =>
     match ProfileDefinitionSet.new_from_json_array j with
     | some s => Except.ok s
     | none => Except.error NsError.mapping)

/-- The GET request issued by `get_activities` (`api.py` line 89). -/
def Api.activities_request (api : Api) (params : List (String × String)) : Request :=
  ⟨HttpMethod.get, api.site_url ++ "/api/v1/activity.json", (api.request_headers).2, params, none⟩

/-- `Api.get_activities` (`api.py` lines 80-93): same zero-length-body
special case as `get_treatments`, elements mapped through
`Activity.new_from_json_dict`. -/
def Api.get_activities (api : Api) (params : List (String × String))
    (http : HttpClient) (decode : JsonDecoder) :
    (Api × List (String × String)) × Except NsError (List Activity) :=
  let r := http (api.activities_request params)
  ((api, params),
   if 0 < r.content.length then
     match decode r.content with
     | Except.error e => Except.error (NsError.decode e)
     | Except.ok (Json.arr xs) =>
       match listMapO Activity.new_from_json_dict xs with
       | some as => Except.ok as
       | none => Except.error NsError.mapping
     | Except.ok _ => Except.error NsError.mapping
   else
     Except.ok [])

/-- The GET request issued by `get_heartrate` (`api.py` line 187): the same
URL as `get_activities`. -/
def Api.heartrate_request (api : Api) (params : List (String × String)) : Request :=
  ⟨HttpMethod.get, api.site_url ++ "/api/v1/activity.json", (api.request_headers).2, params, none⟩

/-- `Api.get_heartrate` (`api.py` lines 178-191): the activity endpoint and
its zero-length-body special case, but elements mapped through
`Treatment.new_from_json_dict` (line 189). -/
def Api.get_heartrate (api : Api) (params : List (String × String))
    (http : HttpClient) (decode : JsonDecoder) :
    (Api × List (String × String)) × Except NsError (List Treatment) :=
  let r := http (api.heartrate_request params)
  ((api, params),
   if 0 < r.content.length then
     match decode r.content with
     | Except.error e => Except.error (NsError.decode e)
     | Except.ok (Json.arr xs) =>
       match listMapO Treatment.new_from_json_dict xs with
       | some ts => Except.ok ts
       | none => Except.error NsError.mapping
     | Except.ok _ => Except.error NsError.mapping
   else
     Except.ok [])

/-- The fixed payload hard-coded in `create_activity` (`api.py` lines
105-124; the commented-out fields are absent). -/
def create_activity_payload : Json :=
  Json.arr [
    Json.obj [("timestamp", Json.str "2023-10-18T08:30:00.000Z"),
              ("created_at", Json.str "2023-10-18T08:30:00.000Z"),
              ("activity_type", Json.str "Running")],
    Json.obj [("timestamp", Json.str "2023-10-18T12:00:00.000Z"),
              ("created_at", Json.str "2023-10-18T12:00:00.000Z"),
              ("type", Json.str "Cycling"),
              ("duration", Json.num 100),
              ("eventType", Json.str "Cycling")]]

/-- The POST request issued by `create_activity` (`api.py` lines 126-127). -/
def Api.create_activity_request (api : Api) : Request :=
  ⟨HttpMethod.post, api.site_url ++ "/api/v1/activity.json", (api.request_headers).2, [],
   some create_activity_payload⟩

/-- `Api.create_activity` (`api.py` lines 96-135): POST the hard-coded
payload (the method accepts no caller data); on status 201 return the
decoded body, otherwise print an error line and return `None`. The second
component of the state pair is the list of printed lines. -/
def Api.create_activity (api : Api) (http : HttpClient) (decode : JsonDecoder) :
    (Api × List String) × Except NsError (Option Json) :=
  let r := http api.create_activity_request
  ((api,
    if r.status = 201 then []
    else ["Error creating activity. Status code: " ++ toString r.status]),
   if r.status = 201 then
     match decode r.content with
     | Except.ok j => Except.ok (some j)
     | Except.error e => Except.error (NsError.decode e)
   else
     Except.ok none)

/-- The fixed payload hard-coded in `create_heartrate` (`api.py` lines
146-165; the commented-out fields are absent). -/
def create_heartrate_payload : Json :=
  Json.arr [
    Json.obj [("timestamp", Json.str "2023-10-18T08:30:00.000Z"),
              ("created_at", Json.str "2023-10-18T08:30:00.000Z"),
              ("activity_type", Json.str "Heartrate"),
              ("value", Json.num 70)],
    Json.obj [("timestamp", Json.str "2023-10-18T12:00:00.000Z"),
              ("created_at", Json.str "2023-10-18T12:00:00.000Z"),
              ("eventType", Json.str "Heartrate"),
              ("value", Json.num 80)]]

/-- The POST request issued by `create_heartrate` (`api.py` lines 167-168). -/
def Api.create_heartrate_request (api : Api) : Request :=
  ⟨HttpMethod.post, api.site_url ++ "/api/v1/activity.json", (api.request_headers).2, [],
   some create_heartrate_payload⟩

/-- `Api.create_heartrate` (`api.py` lines 137-176): identical control flow
to `create_activity`, with its own hard-coded payload (and the same error
message text, duplicated in the source). -/
def Api.create_heartrate (api : Api) (http : HttpClient) (decode : JsonDecoder) :
    (Api × List String) × Except NsError (Option Json) :=
  let r := http api.create_heartrate_request
  ((api,
    if r.status = 201 then []
    else ["Error creating activity. Status code: " ++ toString r.status]),
   if r.status = 201 then
     match decode r.content with
     | Except.ok j => Except.ok (some j)
     | Except.error e => Except.error (NsError.decode e)
   else
     Except.ok none)

/-! ## Theorems -/

/-- Sanity check of the SHA-1 model against the standard test vector. -/
theorem sha1_test_vector_abc :
    sha1HexOfString "abc" = "a9993e364706816aba3e25717850c26c9cd0d89d" := by
  rfl

/-- Every nibble's hex digit is a lowercase hexadecimal character. -/
theorem hexChar_lower : ∀ n, n < 16 → isLowerHexChar (hexChar n) = true := by
  decide

/-- All eight hex digits of a word are lowercase hexadecimal characters. -/
theorem wordHex_lower (x : Nat) : (wordHex x).all isLowerHexChar = true := by
  rw [wordHex, List.all_eq_true]
  intro c hc
  rw [List.mem_map] at hc
  obtain ⟨i, _, rfl⟩ := hc
  exact hexChar_lower _ (Nat.mod_lt _ (by norm_num))

/-- A SHA-1 hex digest consists only of lowercase hexadecimal characters. -/
theorem sha1HexBytes_lower (msg : List Nat) :
    (sha1HexBytes msg).toList.all isLowerHexChar = true := by
  rcases h : sha1Words msg with ⟨a, b, c, d, e⟩
  simp [sha1HexBytes, h, String.toList, List.all_append, wordHex_lower]

/-- `listMapO` preserves length when it succeeds. -/
theorem listMapO_length {α β : Type} {f : α → Option β} :
    ∀ {xs : List α} {ys : List β}, listMapO f xs = some ys → ys.length = xs.length := by
  intro xs
  induction xs with
  | nil =>
    intro ys h
    simp [listMapO] at h
    simp [h.symm]
  | cons x xs ih =>
    intro ys h
    simp only [listMapO] at h
    cases hf : f x with
    | none => rw [hf] at h; simp at h
    | some y =>
      rw [hf] at h
      cases hr : listMapO f xs with
      | none => rw [hr] at h; simp at h
      | some ys2 =>
        rw [hr] at h
        simp at h
        simp [h.symm, ih hr]

/-- `listMapO` maps the `i`-th input to the `i`-th output. -/
theorem listMapO_get {α β : Type} {f : α → Option β} :
    ∀ {xs : List α} {ys : List β}, listMapO f xs = some ys →
      ∀ i (h1 : i < xs.length) (h2 : i < ys.length),
        f (xs.get ⟨i, h1⟩) = some (ys.get ⟨i, h2⟩) := by
  intro xs
  induction xs with
  | nil =>
    intro ys h i h1 h2
    exact absurd h1 (by simp)
  | cons x xs ih =>
    intro ys h i h1 h2
    simp only [listMapO] at h
    cases hf : f x with
    | none => rw [hf] at h; simp at h
    | some y =>
      rw [hf] at h
      cases hr : listMapO f xs with
      | none => rw [hr] at h; simp at h
      | some ys2 =>
        rw [hr] at h
        simp at h
        subst h
        cases i with
        | zero => simpa using hf
        | succ n =>
          exact ih hr n (Nat.lt_of_succ_lt_succ h1) (Nat.lt_of_succ_lt_succ h2)

/-- A successful integer field lookup pins down the JSON field value. -/
theorem getInt?_sound {j : Json} {k : String} {n : Int} (h : j.getInt? k = some n) :
    j.get? k = some (Json.num n) := by
  unfold Json.getInt? at h
  cases hg : j.get? k with
  | none => rw [hg] at h; simp at h
  | some v => rw [hg] at h; cases v <;> simp_all

/-- A successfully mapped SGV record carries the source object's `sgv`
field value. -/
theorem SGV_new_from_json_dict_sgv {j : Json} {s : SGV}
    (h : SGV.new_from_json_dict j = some s) :
    j.get? "sgv" = some (Json.num s.sgv) := by
  unfold SGV.new_from_json_dict at h
  cases hv : j.getInt? "sgv" with
  | none => rw [hv] at h; simp at h
  | some v =>
    rw [hv] at h
    cases ht : j.getStr? "timestamp" with
    | none => rw [ht] at h; simp at h
    | some t =>
      rw [ht] at h
      simp at h
      rw [getInt?_sound hv, h.symm]

/-- C1. `request_headers` always carries `Content-Type: application/json`
and `Accept: application/json`; with a present, non-empty secret it carries
exactly one `api-secret` entry whose value is the lowercase hexadecimal
SHA-1 digest of the UTF-8 encoding of the secret, and with an absent or
empty secret the `api-secret` key is absent from the mapping. -/
theorem request_headers_contract (api : Api) :
    dictGet (api.request_headers).2 "Content-Type" = some "application/json" ∧
    dictGet (api.request_headers).2 "Accept" = some "application/json" ∧
    (∀ s, api.api_secret = some s → s ≠ "" →
      (api.request_headers).2 =
        [("Content-Type", "application/json"), ("Accept", "application/json"),
         ("api-secret", sha1HexOfString s)] ∧
      dictGet (api.request_headers).2 "api-secret" = some (sha1HexOfString s) ∧
      dictCount (api.request_headers).2 "api-secret" = 1 ∧
      sha1HexOfString s = sha1HexBytes (utf8Bytes s) ∧
      (sha1HexOfString s).toList.all isLowerHexChar = true) ∧
    ((api.api_secret = none ∨ api.api_secret = some "") →
      dictGet (api.request_headers).2 "api-secret" = none) := by
  obtain ⟨url, secret⟩ := api
  cases secret with
  | none =>
    refine ⟨rfl, rfl, fun s hs _ => absurd hs (by simp), fun _ => rfl⟩
  | some s =>
    by_cases he : s = ""
    · subst he
      refine ⟨rfl, rfl, fun s' hs' hne => absurd (Option.some.inj hs').symm hne,
        fun _ => rfl⟩
    · have hrh : ((Api.mk url (some s)).request_headers).2 =
          [("Content-Type", "application/json"), ("Accept", "application/json"),
           ("api-secret", sha1HexOfString s)] := by
        simp [Api.request_headers, he, dictSet]
      refine ⟨by rw [hrh]; rfl, by rw [hrh]; rfl, fun s' hs' _ => ?_, fun hc => ?_⟩
      · obtain rfl : s = s' := Option.some.inj hs'
        exact ⟨hrh, by rw [hrh]; rfl, by rw [hrh]; rfl, rfl, sha1HexBytes_lower _⟩
      · rcases hc with h | h
        · exact absurd h (by simp)
        · exact absurd (Option.some.inj h) he

/-- Witness for C1 at concrete inputs: with secret `"secret"` the
`api-secret` header is its digest; with no secret the key is absent. -/
theorem request_headers_contract_witness :
    dictGet ((Api.mk "https://example.com" (some "secret")).request_headers).2 "api-secret"
      = some (sha1HexOfString "secret") ∧
    dictGet ((Api.mk "https://example.com" none).request_headers).2 "api-secret" = none :=
  ⟨((request_headers_contract ⟨"https://example.com", some "secret"⟩).2.2.1 "secret" rfl
      (by decide)).2.1,
   (request_headers_contract ⟨"https://example.com", none⟩).2.2.2 (Or.inl rfl)⟩

/-- C2. With a zero-length raw body, `get_treatments` and `get_activities`
return the empty list for every decoder (so the decoder is never consulted
and no decode error can arise); with a non-empty body the decoded array's
elements are mapped one-to-one into `Treatment` (resp. `Activity`)
records. -/
theorem fetch_empty_body_contract (api : Api) (params : List (String × String))
    (http : HttpClient) (decode : JsonDecoder) :
    ((http (api.treatments_request params)).content = [] →
      (api.get_treatments params http decode).2 = Except.ok []) ∧
    ((http (api.activities_request params)).content = [] →
      (api.get_activities params http decode).2 = Except.ok []) ∧
    (∀ xs ts, decode (http (api.treatments_request params)).content = Except.ok (Json.arr xs) →
      (http (api.treatments_request params)).content ≠ [] →
      listMapO Treatment.new_from_json_dict xs = some ts →
      (api.get_treatments params http decode).2 = Except.ok ts) ∧
    (∀ xs as, decode (http (api.activities_request params)).content = Except.ok (Json.arr xs) →
      (http (api.activities_request params)).content ≠ [] →
      listMapO Activity.new_from_json_dict xs = some as →
      (api.get_activities params http decode).2 = Except.ok as) := by
  refine ⟨fun h => by simp [Api.get_treatments, h],
    fun h => by simp [Api.get_activities, h],
    fun xs ts hdec hne hmap => ?_, fun xs as hdec hne hmap => ?_⟩
  · have hlen : 0 < (http (api.treatments_request params)).content.length :=
      List.length_pos.mpr hne
    simp [Api.get_treatments, hlen, hdec, hmap]
  · have hlen : 0 < (http (api.activities_request params)).content.length :=
      List.length_pos.mpr hne
    simp [Api.get_activities, hlen, hdec, hmap]

/-- Witness for C2 at concrete inputs: a zero-length body yields `[]` even
under a decoder that fails on every input, and a one-element body maps. -/
theorem fetch_empty_body_contract_witness :
    ((Api.mk "u" none).get_treatments [] (fun _ => ⟨200, []⟩)
        (fun _ => Except.error "bad")).2 = Except.ok [] ∧
    ((Api.mk "u" none).get_activities [] (fun _ => ⟨200, []⟩)
        (fun _ => Except.error "bad")).2 = Except.ok [] ∧
    ((Api.mk "u" none).get_treatments [] (fun _ => ⟨200, [91, 93]⟩)
        (fun _ => Except.ok (Json.arr []))).2 = Except.ok [] :=
  ⟨(fetch_empty_body_contract (Api.mk "u" none) [] (fun _ => ⟨200, []⟩)
      (fun _ => Except.error "bad")).1 rfl,
   (fetch_empty_body_contract (Api.mk "u" none) [] (fun _ => ⟨200, []⟩)
      (fun _ => Except.error "bad")).2.1 rfl,
   (fetch_empty_body_contract (Api.mk "u" none) [] (fun _ => ⟨200, [91, 93]⟩)
      (fun _ => Except.ok (Json.arr []))).2.2.1 [] [] rfl (by decide) rfl⟩

/-- C3. When the decoded body is a JSON array whose elements all map to
SGV records, `get_sgvs` returns exactly those records: same length, `i`-th
output produced from the `i`-th input, and the `i`-th output's `sgv` value
equal to the `sgv` field of the `i`-th source object. -/
theorem get_sgvs_maps_elements (api : Api) (params : List (String × String))
    (http : HttpClient) (decode : JsonDecoder) (xs : List Json) (sgvs : List SGV)
    (hdec : decode (http (api.sgvs_request params)).content = Except.ok (Json.arr xs))
    (hmap : listMapO SGV.new_from_json_dict xs = some sgvs) :
    (api.get_sgvs params http decode).2 = Except.ok sgvs ∧
    sgvs.length = xs.length ∧
    ∀ i (h1 : i < xs.length) (h2 : i < sgvs.length),
      SGV.new_from_json_dict (xs.get ⟨i, h1⟩) = some (sgvs.get ⟨i, h2⟩) ∧
      (xs.get ⟨i, h1⟩).get? "sgv" = some (Json.num (sgvs.get ⟨i, h2⟩).sgv) := by
  refine ⟨by simp [Api.get_sgvs, hdec, hmap], listMapO_length hmap, fun i h1 h2 => ?_⟩
  have h := listMapO_get hmap i h1 h2
  exact ⟨h, SGV_new_from_json_dict_sgv h⟩

/-- Witness for C3 at a concrete one-element array. -/
theorem get_sgvs_maps_elements_witness :
    ((Api.mk "u" none).get_sgvs [] (fun _ => ⟨200, [91]⟩)
        (fun _ => Except.ok (Json.arr
          [Json.obj [("sgv", Json.num 100), ("timestamp", Json.str "t")]]))).2
      = Except.ok [⟨100, "t", none, none⟩] :=
  (get_sgvs_maps_elements (Api.mk "u" none) [] (fun _ => ⟨200, [91]⟩)
    (fun _ => Except.ok (Json.arr
      [Json.obj [("sgv", Json.num 100), ("timestamp", Json.str "t")]]))
    [Json.obj [("sgv", Json.num 100), ("timestamp", Json.str "t")]]
    [⟨100, "t", none, none⟩] rfl rfl).1

/-- C4. `get_heartrate` issues its GET to the same request (hence the same
`{site_url}/api/v1/activity.json` URL) as `get_activities`, applies the
same zero-length-body special case, and maps decoded array elements with
`Treatment.new_from_json_dict` — not the Activity mapping — despite its
docstring promising a list of activities. -/
theorem get_heartrate_contract (api : Api) (params : List (String × String))
    (http : HttpClient) (decode : JsonDecoder) :
    api.heartrate_request params = api.activities_request params ∧
    (api.heartrate_request params).url = api.site_url ++ "/api/v1/activity.json" ∧
    ((http (api.heartrate_request params)).content = [] →
      (api.get_heartrate params http decode).2 = Except.ok []) ∧
    (∀ xs ts, decode (http (api.heartrate_request params)).content = Except.ok (Json.arr xs) →
      (http (api.heartrate_request params)).content ≠ [] →
      listMapO Treatment.new_from_json_dict xs = some ts →
      (api.get_heartrate params http decode).2 = Except.ok ts) := by
  refine ⟨rfl, rfl, fun h => by simp [Api.get_heartrate, h],
    fun xs ts hdec hne hmap => ?_⟩
  have hlen : 0 < (http (api.heartrate_request params)).content.length :=
    List.length_pos.mpr hne
  simp [Api.get_heartrate, hlen, hdec, hmap]

/-- Witness for C4: a Treatment-shaped element fetched through
`get_heartrate` comes back as a `Treatment` record. -/
theorem get_heartrate_contract_witness :
    ((Api.mk "u" none).get_heartrate [] (fun _ => ⟨200, [91]⟩)
        (fun _ => Except.ok (Json.arr
          [Json.obj [("eventType", Json.str "Heartrate"), ("timestamp", Json.str "t")]]))).2
      = Except.ok [⟨"Heartrate", "t", none, none, none⟩] :=
  (get_heartrate_contract (Api.mk "u" none) [] (fun _ => ⟨200, [91]⟩)
    (fun _ => Except.ok (Json.arr
      [Json.obj [("eventType", Json.str "Heartrate"), ("timestamp", Json.str "t")]]))).2.2.2
    [Json.obj [("eventType", Json.str "Heartrate"), ("timestamp", Json.str "t")]]
    [⟨"Heartrate", "t", none, none, none⟩] rfl (by decide) rfl

/-- C5. `create_activity` and `create_heartrate` POST their fixed,
hard-coded two-element payloads (the methods accept no caller data at all)
to `{site_url}/api/v1/activity.json`; on status 201 they return the decoded
body, and on any other status they return `None` after printing a line
naming the status code — never an error. -/
theorem create_contract (api : Api) (http : HttpClient) (decode : JsonDecoder) :
    api.create_activity_request.method = HttpMethod.post ∧
    api.create_activity_request.url = api.site_url ++ "/api/v1/activity.json" ∧
    api.create_activity_request.body = some create_activity_payload ∧
    (∃ a b, create_activity_payload = Json.arr [a, b]) ∧
    api.create_heartrate_request.method = HttpMethod.post ∧
    api.create_heartrate_request.url = api.site_url ++ "/api/v1/activity.json" ∧
    api.create_heartrate_request.body = some create_heartrate_payload ∧
    (∃ a b, create_heartrate_payload = Json.arr [a, b]) ∧
    (∀ j, (http api.create_activity_request).status = 201 →
      decode (http api.create_activity_request).content = Except.ok j →
      (api.create_activity http decode).2 = Except.ok (some j)) ∧
    ((http api.create_activity_request).status ≠ 201 →
      (api.create_activity http decode).2 = Except.ok none ∧
      (api.create_activity http decode).1.2 =
        ["Error creating activity. Status code: " ++
          toString (http api.create_activity_request).status]) ∧
    (∀ j, (http api.create_heartrate_request).status = 201 →
      decode (http api.create_heartrate_request).content = Except.ok j →
      (api.create_heartrate http decode).2 = Except.ok (some j)) ∧
    ((http api.create_heartrate_request).status ≠ 201 →
      (api.create_heartrate http decode).2 = Except.ok none ∧
      (api.create_heartrate http decode).1.2 =
        ["Error creating activity. Status code: " ++
          toString (http api.create_heartrate_request).status]) := by
  refine ⟨rfl, rfl, rfl, ⟨_, _, rfl⟩, rfl, rfl, rfl, ⟨_, _, rfl⟩,
    fun j hs hd => by simp [Api.create_activity, hs, hd],
    fun hs => by simp [Api.create_activity, hs],
    fun j hs hd => by simp [Api.create_heartrate, hs, hd],
    fun hs => by simp [Api.create_heartrate, hs]⟩

/-- Witness for C5: a 500 answer yields `None` (no error), a 201 answer
yields the decoded body. -/
theorem create_contract_witness :
    ((Api.mk "u" none).create_activity (fun _ => ⟨500, []⟩)
        (fun _ => Except.ok Json.null)).2 = Except.ok none ∧
    ((Api.mk "u" none).create_heartrate (fun _ => ⟨201, []⟩)
        (fun _ => Except.ok Json.null)).2 = Except.ok (some Json.null) :=
  ⟨((create_contract (Api.mk "u" none) (fun _ => ⟨500, []⟩)
      (fun _ => Except.ok Json.null)).2.2.2.2.2.2.2.2.2.1 (by decide)).1,
   (create_contract (Api.mk "u" none) (fun _ => ⟨201, []⟩)
      (fun _ => Except.ok Json.null)).2.2.2.2.2.2.2.2.2.2.1 Json.null rfl rfl⟩

/-- C6. `get_profiles` always consults the decoder (a decoder failure
propagates even for an empty body — there is no zero-length special case)
and wraps the decoded array into a `ProfileDefinitionSet`; the empty JSON
array yields a set of zero profiles. -/
theorem get_profiles_contract (api : Api) (params : List (String × String))
    (http : HttpClient) (decode : JsonDecoder) :
    (∀ e, decode (http (api.profiles_request params)).content = Except.error e →
      (api.get_profiles params http decode).2 = Except.error (NsError.decode e)) ∧
    (∀ xs ps, decode (http (api.profiles_request params)).content = Except.ok (Json.arr xs) →
      listMapO ProfileDefinition.new_from_json_dict xs = some ps →
      (api.get_profiles params http decode).2 = Except.ok ⟨ps⟩) ∧
    (decode (http (api.profiles_request params)).content = Except.ok (Json.arr []) →
      (api.get_profiles params http decode).2 = Except.ok ⟨[]⟩) := by
  refine ⟨fun e h => by simp [Api.get_profiles, h],
    fun xs ps hdec hmap =>
      by simp [Api.get_profiles, hdec, ProfileDefinitionSet.new_from_json_array, hmap],
    fun h =>
      by simp [Api.get_profiles, h, ProfileDefinitionSet.new_from_json_array, listMapO]⟩

/-- Witness for C6: with an empty body the decoder's failure propagates,
and the empty JSON array yields a set of zero profiles. -/
theorem get_profiles_contract_witness :
    ((Api.mk "u" none).get_profiles [] (fun _ => ⟨200, []⟩)
        (fun _ => Except.error "empty")).2 = Except.error (NsError.decode "empty") ∧
    ((Api.mk "u" none).get_profiles [] (fun _ => ⟨200, [91, 93]⟩)
        (fun _ => Except.ok (Json.arr []))).2 = Except.ok ⟨[]⟩ :=
  ⟨(get_profiles_contract (Api.mk "u" none) [] (fun _ => ⟨200, []⟩)
      (fun _ => Except.error "empty")).1 "empty" rfl,
   (get_profiles_contract (Api.mk "u" none) [] (fun _ => ⟨200, [91, 93]⟩)
      (fun _ => Except.ok (Json.arr []))).2.2 rfl⟩

/-- C7. Every fetch operation's request URL is the literal string
concatenation of `site_url` and the operation's fixed path, and the
caller's query-parameter mapping is placed in the request verbatim. -/
theorem request_building_contract (api : Api) (params : List (String × String)) :
    (api.sgvs_request params).url = api.site_url ++ "/api/v1/entries/sgv.json" ∧
    (api.treatments_request params).url = api.site_url ++ "/api/v1/treatments.json" ∧
    (api.profiles_request params).url = api.site_url ++ "/api/v1/profile.json" ∧
    (api.activities_request params).url = api.site_url ++ "/api/v1/activity.json" ∧
    (api.heartrate_request params).url = api.site_url ++ "/api/v1/activity.json" ∧
    (api.sgvs_request params).params = params ∧
    (api.treatments_request params).params = params ∧
    (api.profiles_request params).params = params ∧
    (api.activities_request params).params = params ∧
    (api.heartrate_request params).params = params :=
  ⟨rfl, rfl, rfl, rfl, rfl, rfl, rfl, rfl, rfl, rfl⟩

/-- C8. The client configuration is immutable: after any operation the
receiver's `site_url` and `api_secret` are what they were before. -/
theorem api_state_immutable (api : Api) (params : List (String × String))
    (http : HttpClient) (decode : JsonDecoder) :
    (api.request_headers).1.site_url = api.site_url ∧
    (api.request_headers).1.api_secret = api.api_secret ∧
    (api.get_sgvs params http decode).1.1 = api ∧
    (api.get_treatments params http decode).1.1 = api ∧
    (api.get_profiles params http decode).1.1 = api ∧
    (api.get_activities params http decode).1.1 = api ∧
    (api.get_heartrate params http decode).1.1 = api ∧
    (api.create_activity http decode).1.1 = api ∧
    (api.create_heartrate http decode).1.1 = api :=
  ⟨rfl, rfl, rfl, rfl, rfl, rfl, rfl, rfl, rfl⟩

/-- C9. `get_sgvs` has no zero-length-body exemption: when every response
body is empty and the decoder fails on the empty input, `get_sgvs`
surfaces that decode error (and in particular does not return the empty
list), while `get_treatments`, `get_activities` and `get_heartrate` all
return the empty list under the same transport. -/
theorem get_sgvs_no_empty_exemption (api : Api) (params : List (String × String))
    (http : HttpClient) (decode : JsonDecoder) (e : String)
    (hc : ∀ req, (http req).content = [])
    (hd : decode [] = Except.error e) :
    (api.get_sgvs params http decode).2 = Except.error (NsError.decode e) ∧
    (api.get_sgvs params http decode).2 ≠ Except.ok [] ∧
    (api.get_treatments params http decode).2 = Except.ok [] ∧
    (api.get_activities params http decode).2 = Except.ok [] ∧
    (api.get_heartrate params http decode).2 = Except.ok [] := by
  have h1 : (api.get_sgvs params http decode).2 = Except.error (NsError.decode e) := by
    simp [Api.get_sgvs, hc, hd]
  exact ⟨h1, by rw [h1]; simp,
    by simp [Api.get_treatments, hc],
    by simp [Api.get_activities, hc],
    by simp [Api.get_heartrate, hc]⟩

/-- Witness for C9: a transport answering with empty bodies and a decoder
failing on the empty input make `get_sgvs` fail with that decode error. -/
theorem get_sgvs_no_empty_exemption_witness :
    ((Api.mk "u" none).get_sgvs [] (fun _ => ⟨200, []⟩)
        (fun _ => Except.error "no json")).2 = Except.error (NsError.decode "no json") ∧
    ((Api.mk "u" none).get_treatments [] (fun _ => ⟨200, []⟩)
        (fun _ => Except.error "no json")).2 = Except.ok [] :=
  ⟨(get_sgvs_no_empty_exemption (Api.mk "u" none) [] (fun _ => ⟨200, []⟩)
      (fun _ => Except.error "no json") "no json" (fun _ => rfl) rfl).1,
   (get_sgvs_no_empty_exemption (Api.mk "u" none) [] (fun _ => ⟨200, []⟩)
      (fun _ => Except.error "no json") "no json" (fun _ => rfl) rfl).2.2.1⟩

/-- C10. No fetch operation mutates its `params` argument, and a call with
the omitted-argument default behaves identically to a call with a freshly
constructed empty mapping. -/
theorem params_not_mutated (api : Api) (params : List (String × String))
    (http : HttpClient) (decode : JsonDecoder) :
    (api.get_sgvs params http decode).1.2 = params ∧
    (api.get_treatments params http decode).1.2 = params ∧
    (api.get_profiles params http decode).1.2 = params ∧
    (api.get_activities params http decode).1.2 = params ∧
    (api.get_heartrate params http decode).1.2 = params ∧
    api.get_sgvs default_params http decode = api.get_sgvs [] http decode ∧
    api.get_treatments default_params http decode = api.get_treatments [] http decode ∧
    api.get_profiles default_params http decode = api.get_profiles [] http decode ∧
    api.get_activities default_params http decode = api.get_activities [] http decode ∧
    api.get_heartrate default_params http decode = api.get_heartrate [] http decode :=
  ⟨rfl, rfl, rfl, rfl, rfl, rfl, rfl, rfl, rfl, rfl⟩
